import Mathlib

/-!
Shallow embedding of `src/server/main.py` of the Kaiwu ChatGPT plugin server:
the bearer-token gate, the document API handlers (upsert, upsert-file, query,
delete), and the OAuth bridge endpoints (subscription exchange and
authorization).  External collaborators (the datastore, the upstream identity
provider, pydantic parsing, file extraction) are passed in as explicit function
parameters; Python exceptions become `Except` values; handlers additionally
return the list of datastore calls they performed.
-/

namespace KaiwuPlugin

/-- Modelled from the spec: document origin tags from `models/models.py`
(which is not among the sources); the server only ever names the `file`
member. -/
inductive Source where
  | email
  | file
  | chat
deriving DecidableEq, Repr

/-- Modelled from the spec: `DocumentMetadata` is opaque to this core beyond
carrying a `source` tag (`models/models.py` is not among the sources). -/
structure DocumentMetadata where
  source : Option Source := none
deriving DecidableEq, Repr

/-- Modelled from the spec: a document is an opaque payload handed to the
Datastore Client. -/
structure Document where
  text : String := ""
  metadata : Option DocumentMetadata := none
deriving DecidableEq, Repr

/-- Modelled from the spec: a metadata filter is opaque to this core; only its
presence is ever inspected by `src/server/main.py`. -/
structure DocumentMetadataFilter where
  document_id : Option String := none
  source : Option Source := none
deriving DecidableEq, Repr

/-- Modelled from the spec: a query object carries a natural-language query
string and an optional filter (`models/api.py` is not among the sources). -/
structure Query where
  query : String
  filter : Option DocumentMetadataFilter := none
deriving DecidableEq, Repr

/-- Modelled from the spec: a per-query result set, returned unchanged by the
query handlers; its contents are opaque to this core. -/
structure QueryResult where
  query : String
  results : List Document := []
deriving DecidableEq, Repr

/-- Modelled from the spec: body of `POST /upsert`. -/
structure UpsertRequest where
  documents : List Document
deriving DecidableEq, Repr

/-- Modelled from the spec: response of the upsert handlers. -/
structure UpsertResponse where
  ids : List String
deriving DecidableEq, Repr

/-- Modelled from the spec: body of `POST /query`. -/
structure QueryRequest where
  queries : List Query
deriving DecidableEq, Repr

/-- Modelled from the spec: response of the query handlers. -/
structure QueryResponse where
  results : List QueryResult
deriving DecidableEq, Repr

/-- Modelled from the spec: body of `DELETE /delete`; each field is optional. -/
structure DeleteRequest where
  ids : Option (List String) := none
  filter : Option DocumentMetadataFilter := none
  delete_all : Option Bool := none
deriving DecidableEq, Repr

/-- Modelled from the spec: response of the delete handler. -/
structure DeleteResponse where
  success : Bool
deriving DecidableEq, Repr

/-- A raised `HTTPException(status_code, detail)`. -/
structure HTTPExc where
  status_code : Nat
  detail : String
deriving DecidableEq, Repr

/-- Environment-sourced configuration (`os.environ`).  `BEARER_TOKEN` is
asserted non-`None` at startup (line 44), so it is a plain `String`; the other
secrets are read with `os.environ.get` at use sites and may be absent. -/
structure Config where
  bearerToken : String
  clientId : Option String := none
  clientSecret : Option String := none
  openaiCode : Option String := none
deriving DecidableEq, Repr

/-- The parsed `Authorization` header handed over by `HTTPBearer`. -/
structure HTTPAuthorizationCredentials where
  scheme : String
  credentials : String
deriving DecidableEq, Repr

/-- `validate_token` (src/server/main.py lines 47 to 50): accept only the
`Bearer` scheme carrying exactly the configured secret; otherwise raise a 401
`HTTPException`. -/
def validate_token (cfg : Config) (credentials : HTTPAuthorizationCredentials) :
    Except HTTPExc HTTPAuthorizationCredentials :=
  if credentials.scheme ≠ "Bearer" ∨ credentials.credentials ≠ cfg.bearerToken then
    .error ⟨401, "Invalid or missing token"⟩
  else
    .ok credentials

/-- One call made to the Datastore Client, with the exact arguments passed. -/
inductive DatastoreCall where
  | upsert (documents : List Document)
  | query (queries : List Query)
  | delete (ids : Option (List String)) (filter : Option DocumentMetadataFilter)
      (delete_all : Option Bool)
deriving DecidableEq, Repr

/-- Outcome of one handler invocation: the HTTP response (or raised
`HTTPException`) together with the datastore calls performed. -/
structure Handled (α : Type) where
  response : Except HTTPExc α
  calls : List DatastoreCall
deriving Repr

/-- Execution of a bearer-gated route: FastAPI evaluates the
`Depends(validate_token)` dependency (line 53) before the handler body; a
raised `HTTPException` short-circuits the request, so the handler is never
entered and no datastore call happens. -/
def runGated {α : Type} (cfg : Config) (credentials : HTTPAuthorizationCredentials)
    (handler : Unit → Handled α) : Handled α :=
  match validate_token cfg credentials with
  | .error e => ⟨.error e, []⟩
  | .ok _ => handler ()

/-- Python truthiness of `Optional[List[str]]`: `None` and `[]` are falsy. -/
def truthyIds : Option (List String) → Bool
  | none => false
  | some l => !l.isEmpty

/-- Python truthiness of an optional pydantic filter object: a model instance
is always truthy, so only `None` is falsy. -/
def truthyFilter : Option DocumentMetadataFilter → Bool
  | none => false
  | some _ => true

/-- Python truthiness of `Optional[bool]`: `None` and `False` are falsy. -/
def truthyDeleteAll : Option Bool → Bool
  | none => false
  | some b => b

/-- `delete` handler (src/server/main.py lines 281 to 298): if
`not (request.ids or request.filter or request.delete_all)` raise a 400;
otherwise call `datastore.delete` with the request's exact fields, returning
`DeleteResponse(success=...)` on success and a generic 500 on exception.
The datastore is modelled by `dsDelete`, whose `Except String` error carries
`str(e)` of the raised exception. -/
def delete
    (dsDelete : Option (List String) → Option DocumentMetadataFilter → Option Bool →
      Except String Bool)
    (request : DeleteRequest) : Handled DeleteResponse :=
  if !(truthyIds request.ids || truthyFilter request.filter ||
      truthyDeleteAll request.delete_all) then
    ⟨.error ⟨400, "One of ids, filter, or delete_all is required"⟩, []⟩
  else
    match dsDelete request.ids request.filter request.delete_all with
    | .ok success =>
        ⟨.ok ⟨success⟩, [.delete request.ids request.filter request.delete_all]⟩
    | .error _ =>
        ⟨.error ⟨500, "Internal Service Error"⟩,
          [.delete request.ids request.filter request.delete_all]⟩

/-- `upsert` handler (src/server/main.py lines 230 to 238): call
`datastore.upsert(request.documents)`; on success return the assigned ids, on
any exception log and raise a 500 with the fixed detail
`"Internal Service Error"`. -/
def upsert (dsUpsert : List Document → Except String (List String))
    (request : UpsertRequest) : Handled UpsertResponse :=
  match dsUpsert request.documents with
  | .ok ids => ⟨.ok ⟨ids⟩, [.upsert request.documents]⟩
  | .error _ => ⟨.error ⟨500, "Internal Service Error"⟩, [.upsert request.documents]⟩

/-- The metadata object built by `upsert_file` (src/server/main.py lines 207
to 214): `DocumentMetadata.parse_raw(metadata) if metadata else
DocumentMetadata(source=Source.file)` inside try, with a bare `except` falling
back to `DocumentMetadata(source=Source.file)`.  `parse_raw` is modelled as a
function to `Option DocumentMetadata`, `none` meaning the parse raised. -/
def upsert_file_metadata (parse_raw : String → Option DocumentMetadata) :
    Option String → DocumentMetadata
  | some s =>
      if s ≠ "" then
        match parse_raw s with
        | some m => m
        | none => ⟨some Source.file⟩
      else ⟨some Source.file⟩
  | none => ⟨some Source.file⟩

/-- `upsert_file` handler (src/server/main.py lines 203 to 223): build the
metadata object best-effort, extract a document from the uploaded file
(modelled by `get_document_from_file`, already applied to the fixed file), and
call `datastore.upsert([document])`.  On a datastore exception it raises a 500
whose detail is the f-string `f"str({e})"`, i.e. the literal text `str(` and
`)` wrapped around `str(e)`. -/
def upsert_file (parse_raw : String → Option DocumentMetadata)
    (get_document_from_file : DocumentMetadata → Document)
    (dsUpsert : List Document → Except String (List String))
    (metadata : Option String) : Handled UpsertResponse :=
  let metadata_obj := upsert_file_metadata parse_raw metadata
  let document := get_document_from_file metadata_obj
  match dsUpsert [document] with
  | .ok ids => ⟨.ok ⟨ids⟩, [.upsert [document]]⟩
  | .error e => ⟨.error ⟨500, "str(" ++ e ++ ")"⟩, [.upsert [document]]⟩

/-- `query_main` handler on the main app (src/server/main.py lines 241 to
255): call `datastore.query(request.queries)`; return the results unchanged on
success, a generic 500 on exception. -/
def query_main (dsQuery : List Query → Except String (List QueryResult))
    (request : QueryRequest) : Handled QueryResponse :=
  match dsQuery request.queries with
  | .ok results => ⟨.ok ⟨results⟩, [.query request.queries]⟩
  | .error _ => ⟨.error ⟨500, "Internal Service Error"⟩, [.query request.queries]⟩

/-- `query` handler on the `/sub` sub-application (src/server/main.py lines
258 to 274): call `datastore.query(request.queries)`; return the results
unchanged on success, a generic 500 on exception. -/
def query (dsQuery : List Query → Except String (List QueryResult))
    (request : QueryRequest) : Handled QueryResponse :=
  match dsQuery request.queries with
  | .ok results => ⟨.ok ⟨results⟩, [.query request.queries]⟩
  | .error _ => ⟨.error ⟨500, "Internal Service Error"⟩, [.query request.queries]⟩

/-- Response of `POST /oauth/authorization/`. -/
structure AuthResponse where
  access_token : String
  token_type : String
deriving DecidableEq, Repr

/-- `authorization` handler (src/server/main.py lines 170 to 183): compare the
three form fields against `os.environ.get` values (a `str` compared to an
absent env value, i.e. Python `None`, is always unequal); any mismatch raises
a 401, otherwise return the configured bearer token. -/
def authorization (cfg : Config) (client_id client_secret code : String) :
    Except HTTPExc AuthResponse :=
  if some client_id ≠ cfg.clientId ∨ some client_secret ≠ cfg.clientSecret ∨
      some code ≠ cfg.openaiCode then
    .error ⟨401, "Invalid or missing token"⟩
  else
    .ok ⟨cfg.bearerToken, "bearer"⟩

/-- The per-caller session dictionary of the OAuth bridge; each key read by
`subscription` is modelled as an optional field (`session_data.get` returns
`None` when the key is absent). -/
structure Session where
  state : Option String := none
  redirect_uri : Option String := none
  wix_callback_url : Option String := none
  code_verifier : Option String := none
deriving DecidableEq, Repr

/-- Body of `POST /oauth/callback/` (src/server/main.py lines 132 to 134). -/
structure SubscriptionRequest where
  code : String
  state : String
deriving DecidableEq, Repr

/-- JSON content returned by the subscription exchange. -/
structure SubResponse where
  message : String
  url : String
deriving DecidableEq, Repr

/-- Unhandled Python errors the `subscription` handler can raise:
`TypeError` from `None + str` when `redirect_uri` is absent, `KeyError` from
`session_data["code_verifier"]` when that key is absent. -/
inductive SubError where
  | typeError
  | keyError (key : String)
deriving DecidableEq, Repr

/-- Outcome of one `subscription` invocation: the response or raised error,
and the `(code, code_verifier)` arguments of each `get_member_access_token`
call made upstream. -/
structure SubOutcome where
  result : Except SubError SubResponse
  exchangeCalls : List (String × String)
deriving Repr

/-- Python `str()` of an optional string as interpolated by an f-string:
an absent value renders as the literal text `None`. -/
def pyStr : Option String → String
  | none => "None"
  | some s => s

/-- `subscription` handler (src/server/main.py lines 137 to 167), in source
evaluation order: read `state` and `redirect_uri` from the session with
`.get`, build `url = redirect_uri + f"?state={state}&code={openai_code}"`
(raising `TypeError` when `redirect_uri` is `None`), then index
`session_data["code_verifier"]` (raising `KeyError` when absent), exchange the
Wix code for a member access token, look up the subscription tier, and answer
with the built url for `"Elite"` members or the fixed fallback url
otherwise.  The upstream collaborators `get_member_access_token` (returning an
access and a refresh token) and `wix_get_subscription` are parameters. -/
def subscription (cfg : Config)
    (get_member_access_token : String → String → String × String)
    (wix_get_subscription : String → String)
    (request : SubscriptionRequest) (session_data : Session) : SubOutcome :=
  let state := session_data.state
  match session_data.redirect_uri with
  | none => ⟨.error .typeError, []⟩
  | some redirect_uri =>
    let url := redirect_uri ++ "?state=" ++ pyStr state ++ "&code=" ++ pyStr cfg.openaiCode
    let wix_code := request.code
    match session_data.code_verifier with
    | none => ⟨.error (.keyError "code_verifier"), []⟩
    | some code_verifier =>
      let member_access_token := (get_member_access_token wix_code code_verifier).1
      let tier := wix_get_subscription member_access_token
      if tier = "Elite" then
        ⟨.ok ⟨"You are an Elite member.", url⟩, [(wix_code, code_verifier)]⟩
      else
        ⟨.ok ⟨"You are not an Elite member.", "https://www.kaiwu.info"⟩,
          [(wix_code, code_verifier)]⟩

/-- C1: every request to a bearer-gated route whose credential has a scheme
other than `Bearer` or a token different from the configured secret is
rejected with a 401 error, no matter what the handler would do: the handler
body never runs and no datastore call is performed. -/
theorem C1_token_gate_rejects {α : Type} (cfg : Config)
    (credentials : HTTPAuthorizationCredentials) (handler : Unit → Handled α)
    (h : credentials.scheme ≠ "Bearer" ∨ credentials.credentials ≠ cfg.bearerToken) :
    runGated cfg credentials handler =
      ⟨.error ⟨401, "Invalid or missing token"⟩, []⟩ := by
  unfold runGated validate_token
  rw [if_pos h]

/-- Witness for C1: a concrete wrong-scheme credential against a handler that
would have called the datastore. -/
theorem C1_token_gate_rejects_witness :
    runGated ⟨"secret", none, none, none⟩ ⟨"Basic", "secret"⟩
        (fun _ => ⟨.ok (DeleteResponse.mk true), [.delete none none (some true)]⟩) =
      ⟨.error ⟨401, "Invalid or missing token"⟩, []⟩ :=
  C1_token_gate_rejects _ _ _ (Or.inl (by decide))

/-- C2: the authorization endpoint returns the configured bearer token with
token type `bearer` exactly when `client_id`, `client_secret` and `code` all
equal their configured values; on any mismatch it answers with a 401 error
(and those are the only two outcomes). -/
theorem C2_authorization_iff (cfg : Config) (client_id client_secret code : String) :
    (authorization cfg client_id client_secret code = .ok ⟨cfg.bearerToken, "bearer"⟩ ↔
      cfg.clientId = some client_id ∧ cfg.clientSecret = some client_secret ∧
        cfg.openaiCode = some code) ∧
    (¬(cfg.clientId = some client_id ∧ cfg.clientSecret = some client_secret ∧
        cfg.openaiCode = some code) →
      authorization cfg client_id client_secret code =
        .error ⟨401, "Invalid or missing token"⟩) := by
  unfold authorization
  by_cases h : some client_id ≠ cfg.clientId ∨ some client_secret ≠ cfg.clientSecret ∨
      some code ≠ cfg.openaiCode
  · rw [if_pos h]
    refine ⟨⟨fun hc => absurd hc (by simp), fun hm => ?_⟩, fun _ => rfl⟩
    rcases h with h | h | h <;> simp [hm.1, hm.2.1, hm.2.2] at h
  · rw [if_neg h]
    push_neg at h
    exact ⟨⟨fun _ => ⟨h.1.symm, h.2.1.symm, h.2.2.symm⟩, fun _ => rfl⟩,
      fun hm => absurd ⟨h.1.symm, h.2.1.symm, h.2.2.symm⟩ hm⟩

/-- C3: a delete request with `ids`, `filter` and `delete_all` all absent is
answered with a 400 error and performs no datastore call, whatever the
datastore would have done. -/
theorem C3_delete_requires_criterion
    (dsDelete : Option (List String) → Option DocumentMetadataFilter → Option Bool →
      Except String Bool) :
    delete dsDelete ⟨none, none, none⟩ =
      ⟨.error ⟨400, "One of ids, filter, or delete_all is required"⟩, []⟩ := rfl

/-- C4 counterexample: a delete request in which `ids` is present (as the
empty list) is nevertheless answered with a 400 error and no datastore call,
even though the datastore would have returned success — refuting the claim
that presence of any one criterion suffices for the datastore to be called. -/
theorem C4_presence_not_sufficient :
    delete (fun _ _ _ => .ok true) ⟨some [], none, none⟩ =
      ⟨.error ⟨400, "One of ids, filter, or delete_all is required"⟩, []⟩ := rfl

/-- C4 (amended): for every delete request in which at least one of `ids`,
`filter`, `delete_all` is present with a truthy value, the handler calls the
datastore exactly once with exactly the request's three field values, and when
the datastore reports `b` the handler answers `success = b`. -/
theorem C4_delete_forwards
    (dsDelete : Option (List String) → Option DocumentMetadataFilter → Option Bool →
      Except String Bool)
    (request : DeleteRequest) (b : Bool)
    (htruthy : (truthyIds request.ids || truthyFilter request.filter ||
      truthyDeleteAll request.delete_all) = true)
    (hds : dsDelete request.ids request.filter request.delete_all = .ok b) :
    delete dsDelete request =
      ⟨.ok ⟨b⟩, [.delete request.ids request.filter request.delete_all]⟩ := by
  unfold delete
  rw [htruthy, hds]
  simp

/-- Witness for C4 (amended): a delete request carrying one nonempty id. -/
theorem C4_delete_forwards_witness :
    delete (fun _ _ _ => .ok true) ⟨some ["a"], none, none⟩ =
      ⟨.ok ⟨true⟩, [.delete (some ["a"]) none none]⟩ :=
  C4_delete_forwards _ _ true (by decide) rfl

/-- C5: an upsert-file request whose `metadata` string is present but fails to
parse still uses the default metadata with source `file`, and the whole
invocation is identical to one with the `metadata` field absent (in particular
it is not a request error: the document still reaches the datastore). -/
theorem C5_metadata_parse_fallback
    (parse_raw : String → Option DocumentMetadata)
    (get_document_from_file : DocumentMetadata → Document)
    (dsUpsert : List Document → Except String (List String))
    (s : String) (hparse : parse_raw s = none) :
    upsert_file_metadata parse_raw (some s) = ⟨some Source.file⟩ ∧
    upsert_file parse_raw get_document_from_file dsUpsert (some s) =
      upsert_file parse_raw get_document_from_file dsUpsert none := by
  have hmeta : upsert_file_metadata parse_raw (some s) = ⟨some Source.file⟩ := by
    simp only [upsert_file_metadata]
    by_cases hs : s ≠ ""
    · rw [if_pos hs, hparse]
    · rw [if_neg hs]
  refine ⟨hmeta, ?_⟩
  have hsame : upsert_file_metadata parse_raw (some s) =
      upsert_file_metadata parse_raw none := hmeta
  unfold upsert_file
  rw [hsame]

/-- Witness for C5: a concrete never-parsing `parse_raw` and a malformed
metadata string. -/
theorem C5_metadata_parse_fallback_witness :
    upsert_file_metadata (fun _ => none) (some "not json") = ⟨some Source.file⟩ ∧
    upsert_file (fun _ => none) (fun m => ⟨"doc", some m⟩) (fun _ => .ok ["id1"])
        (some "not json") =
      upsert_file (fun _ => none) (fun m => ⟨"doc", some m⟩) (fun _ => .ok ["id1"]) none :=
  C5_metadata_parse_fallback _ _ _ _ rfl

/-- C6: in the subscription exchange with a fully populated session and a
configured issued code, an upstream tier equal to `Elite` yields a response
whose url is built from the stored `redirect_uri` and embeds the stored
`state` unchanged together with the configured issued code; any other tier
yields the fixed fallback url and the non-elite message. -/
theorem C6_subscription_tier (cfg : Config)
    (get_member_access_token : String → String → String × String)
    (wix_get_subscription : String → String)
    (request : SubscriptionRequest) (session_data : Session)
    (st ru cv oc : String)
    (hst : session_data.state = some st)
    (hru : session_data.redirect_uri = some ru)
    (hcv : session_data.code_verifier = some cv)
    (hoc : cfg.openaiCode = some oc) :
    (wix_get_subscription (get_member_access_token request.code cv).1 = "Elite" →
      subscription cfg get_member_access_token wix_get_subscription request session_data =
        ⟨.ok ⟨"You are an Elite member.", ru ++ "?state=" ++ st ++ "&code=" ++ oc⟩,
          [(request.code, cv)]⟩) ∧
    (wix_get_subscription (get_member_access_token request.code cv).1 ≠ "Elite" →
      subscription cfg get_member_access_token wix_get_subscription request session_data =
        ⟨.ok ⟨"You are not an Elite member.", "https://www.kaiwu.info"⟩,
          [(request.code, cv)]⟩) := by
  refine ⟨fun htier => ?_, fun htier => ?_⟩ <;>
    simp [subscription, hru, hcv, hst, hoc, pyStr, htier]

/-- Witness for C6: concrete session and collaborators, Elite tier. -/
theorem C6_subscription_tier_witness :
    subscription ⟨"tok", none, none, some "issued"⟩ (fun c v => (c ++ v, "r"))
        (fun _ => "Elite") ⟨"wixcode", "s"⟩
        { state := some "xyz", redirect_uri := some "https://cb",
          wix_callback_url := none, code_verifier := some "ver" } =
      ⟨.ok ⟨"You are an Elite member.", "https://cb?state=xyz&code=issued"⟩,
        [("wixcode", "ver")]⟩ :=
  (C6_subscription_tier _ _ _ _ _ "xyz" "https://cb" "ver" "issued"
    rfl rfl rfl rfl).1 rfl

/-- C7 counterexample: a session lacking only `state` (but holding
`redirect_uri` and `code_verifier`) does not fail with a missing-data error:
the handler completes the upstream token exchange and answers normally, with
the literal text `None` embedded as the state in the redirect url. -/
theorem C7_missing_state_still_completes :
    subscription ⟨"tok", none, none, some "issued"⟩ (fun c v => (c ++ v, "r"))
        (fun _ => "Elite") ⟨"wixcode", "s"⟩
        { state := none, redirect_uri := some "https://cb",
          wix_callback_url := none, code_verifier := some "ver" } =
      ⟨.ok ⟨"You are an Elite member.", "https://cb?state=None&code=issued"⟩,
        [("wixcode", "ver")]⟩ := rfl

/-- C7 (amended): a session lacking `code_verifier` makes the subscription
exchange fail with an unhandled error — a `TypeError` when `redirect_uri` is
also absent, otherwise a `KeyError` on `code_verifier` — and the upstream
token exchange is never performed. -/
theorem C7_missing_code_verifier_fails (cfg : Config)
    (get_member_access_token : String → String → String × String)
    (wix_get_subscription : String → String)
    (request : SubscriptionRequest) (session_data : Session)
    (hcv : session_data.code_verifier = none) :
    (subscription cfg get_member_access_token wix_get_subscription request
        session_data).exchangeCalls = [] ∧
    ((subscription cfg get_member_access_token wix_get_subscription request
        session_data).result = .error SubError.typeError ∨
      (subscription cfg get_member_access_token wix_get_subscription request
        session_data).result = .error (SubError.keyError "code_verifier")) := by
  cases hru : session_data.redirect_uri with
  | none => simp [subscription, hru]
  | some ru => simp [subscription, hru, hcv]

/-- Witness for C7 (amended): a concrete session with every key but
`code_verifier`. -/
theorem C7_missing_code_verifier_fails_witness :
    (subscription ⟨"tok", none, none, some "issued"⟩ (fun c v => (c ++ v, "r"))
        (fun _ => "Elite") ⟨"wixcode", "s"⟩
        { state := some "xyz", redirect_uri := some "https://cb",
          wix_callback_url := none, code_verifier := none }).exchangeCalls = [] ∧
    ((subscription ⟨"tok", none, none, some "issued"⟩ (fun c v => (c ++ v, "r"))
        (fun _ => "Elite") ⟨"wixcode", "s"⟩
        { state := some "xyz", redirect_uri := some "https://cb",
          wix_callback_url := none, code_verifier := none }).result =
        .error SubError.typeError ∨
      (subscription ⟨"tok", none, none, some "issued"⟩ (fun c v => (c ++ v, "r"))
        (fun _ => "Elite") ⟨"wixcode", "s"⟩
        { state := some "xyz", redirect_uri := some "https://cb",
          wix_callback_url := none, code_verifier := none }).result =
        .error (SubError.keyError "code_verifier")) :=
  C7_missing_code_verifier_fails _ _ _ _ _ rfl

/-- C8 (code-bug exhibit): on a datastore exception with message `boom`, the
`upsert_file` handler answers 500 with detail `str(boom)` — the f-string
`f"str({e})"` interpolates the exception into the response, leaking its text
and differing from the fixed generic message — while the `upsert`,
`query_main`, `query` and `delete` handlers all answer 500 with the fixed
detail `Internal Service Error`. -/
theorem C8_upsert_file_leaks_detail :
    (upsert_file (fun _ => none) (fun m => ⟨"doc", some m⟩) (fun _ => .error "boom")
        none).response = .error ⟨500, "str(boom)"⟩ ∧
    "str(boom)" ≠ "Internal Service Error" ∧
    (upsert (fun _ => .error "boom") ⟨[]⟩).response =
      .error ⟨500, "Internal Service Error"⟩ ∧
    (query_main (fun _ => .error "boom") ⟨[]⟩).response =
      .error ⟨500, "Internal Service Error"⟩ ∧
    (query (fun _ => .error "boom") ⟨[]⟩).response =
      .error ⟨500, "Internal Service Error"⟩ ∧
    (delete (fun _ _ _ => .error "boom") ⟨none, none, some true⟩).response =
      .error ⟨500, "Internal Service Error"⟩ :=
  ⟨rfl, by decide, rfl, rfl, rfl, rfl⟩

/-- C9: the `POST /query` handler of the main app and the `POST /query`
handler of the `/sub` sub-application are behaviorally equivalent: for every
request and every datastore behavior they produce identical outcomes, and each
makes exactly one datastore query call with `request.queries`. -/
theorem C9_query_handlers_equivalent
    (dsQuery : List Query → Except String (List QueryResult))
    (request : QueryRequest) :
    query_main dsQuery request = query dsQuery request ∧
    (query_main dsQuery request).calls = [.query request.queries] ∧
    (query dsQuery request).calls = [.query request.queries] := by
  unfold query_main query
  cases dsQuery request.queries <;> exact ⟨rfl, rfl, rfl⟩

/-- C10: the delete criteria check uses Python truthiness, not presence: a
request whose `ids` is absent or the explicit empty list, whose `filter` is
absent, and whose `delete_all` is absent or the explicit `false`, is answered
with a 400 error and no datastore call even when a criterion was explicitly
supplied. -/
theorem C10_delete_falsy_values_rejected
    (dsDelete : Option (List String) → Option DocumentMetadataFilter → Option Bool →
      Except String Bool)
    (ids : Option (List String)) (delete_all : Option Bool)
    (hids : ids = none ∨ ids = some [])
    (hda : delete_all = none ∨ delete_all = some false) :
    delete dsDelete ⟨ids, none, delete_all⟩ =
      ⟨.error ⟨400, "One of ids, filter, or delete_all is required"⟩, []⟩ := by
  rcases hids with h1 | h1 <;> rcases hda with h2 | h2 <;> subst h1 <;> subst h2 <;> rfl

/-- Witness for C10: `ids` supplied as the empty list and `delete_all`
supplied as `false` still yield a 400 with no datastore call. -/
theorem C10_delete_falsy_values_rejected_witness :
    delete (fun _ _ _ => .ok true) ⟨some [], none, some false⟩ =
      ⟨.error ⟨400, "One of ids, filter, or delete_all is required"⟩, []⟩ :=
  C10_delete_falsy_values_rejected _ (some []) (some false) (Or.inr rfl) (Or.inr rfl)

end KaiwuPlugin
